import Mathlib

/-!
Verification of the `zoho-mail-cli` repository (TypeScript) against its
natural-language specification.

The development shallowly embeds the relevant parts of the source:

* `src/lib/client.ts` — the API client (`proxyCall`, `sendEmail`, and the ten
  capability-gated stub operations);
* `src/lib/auth.ts` (concatenated into `SPEC.md`) — the auth bridge
  (`checkZohoConnection` and its two response-shape parsers);
* `src/lib/config.ts` (concatenated into `SPEC.md`) — the config store
  (`getConfig` / `setConfig` / `clearConfig` over the `conf` key-value store);
* `src/lib/output.ts` — the email status/attachment icon derivation;
* `src/commands/{auth,mail,folders,labels}.ts` — the command actions the
  claims reference.

External collaborators (the `pdauth` subprocess and `JSON.parse`) are passed
in as explicit arguments (`Except String String` process outcomes and a
`String → Except String Json` parse function), so every embedded function is
a total, executable Lean function of its inputs.
-/

namespace ZohoCli

/-! ## JSON values and JavaScript-style dynamic access

`Json` models the values produced by `JSON.parse`.  JavaScript property
access, truthiness and strict equality are modelled explicitly because the
source leans on them (`parsed.content?.[0]?.text`, `if (options.user)`,
`hasAtt === '1'`, ...).  `Option Json` models a possibly-`undefined` value
(`none` = `undefined`). -/

inductive Json where
  | null : Json
  | bool (b : Bool) : Json
  | num (n : Int) : Json
  | str (s : String) : Json
  | arr (elems : List Json) : Json
  | obj (fields : List (String × Json)) : Json
deriving Repr

/-- The `'\x7b'` character (left curly brace). -/
def lbrace : Char := Char.ofNat 123

/-- The `'\x7d'` character (right curly brace). -/
def rbrace : Char := Char.ofNat 125

/-- JavaScript truthiness of a defined value. -/
def Json.truthy : Json → Bool
  | .null => false
  | .bool b => b
  | .num n => n != 0
  | .str s => s != ""
  | .arr _ => true
  | .obj _ => true

/-- JavaScript truthiness of a possibly-`undefined` value. -/
def jsTruthy : Option Json → Bool
  | none => false
  | some j => j.truthy

/-- JavaScript strict equality `v === "s"` against a string literal. -/
def jsEqStr : Option Json → String → Bool
  | some (.str t), s => t = s
  | _, _ => false

/-- Key lookup in a JSON object's field list (first binding wins, as in
`JSON.parse` output every key is unique anyway). -/
def lookupField : List (String × Json) → String → Option Json
  | [], _ => none
  | (k, v) :: rest, key => if k = key then some v else lookupField rest key

/-- JavaScript property access `receiver.key`.  Throws (`Except.error`) when
the receiver is `null`; yields `undefined` (`none`) when the property is
absent or the receiver is a primitive without that property. -/
def jsGetProp : Json → String → Except String (Option Json)
  | .null, _ => .error "TypeError: cannot read properties of null"
  | .obj fields, key => .ok (lookupField fields key)
  | .arr elems, key =>
      if key = "length" then .ok (some (.num elems.length)) else .ok none
  | .str s, key =>
      if key = "length" then .ok (some (.num s.length)) else .ok none
  | .bool _, _ => .ok none
  | .num _, _ => .ok none

/-- JavaScript index access `receiver[i]` on a non-null, non-undefined
receiver: array element, string character, or `undefined`. -/
def jsIndex : Json → Nat → Option Json
  | .arr elems, i => elems.get? i
  | .str s, i => (s.data.get? i).map (fun c => .str (String.mk [c]))
  | _, _ => none

/-! ## String helpers mirroring the JavaScript string methods used -/

/-- List containment test used to model `String.prototype.includes`:
does the pattern occur as a contiguous run inside the text? -/
def isPrefixList : List Char → List Char → Bool
  | [], _ => true
  | _ :: _, [] => false
  | a :: as, b :: bs => a = b && isPrefixList as bs

def containsSub (pat : List Char) : List Char → Bool
  | [] => pat.isEmpty
  | c :: rest => isPrefixList pat (c :: rest) || containsSub pat rest

/-- Model of `s.includes(pat)` from JavaScript. -/
def containsStr (s pat : String) : Bool := containsSub pat.data s.data

/-- Model of `s.toLowerCase()` (ASCII, which is all the source compares). -/
def jsToLower (s : String) : String := String.mk (s.data.map Char.toLower)

/-- Model of `s.trim()` from JavaScript: strip leading and trailing whitespace. -/
def jsTrim (s : String) : String :=
  String.mk (((s.data.dropWhile Char.isWhitespace).reverse.dropWhile Char.isWhitespace).reverse)

/-- Split a character list on a separator character (`s.split('\n')`):
always at least one piece, empty pieces preserved. -/
def splitOnChar (sep : Char) : List Char → List (List Char)
  | [] => [[]]
  | c :: rest =>
      let pieces := splitOnChar sep rest
      if c = sep then [] :: pieces
      else
        match pieces with
        | [] => [[c]]
        | piece :: more => (c :: piece) :: more

/-- Model of `s.split('\n')` from JavaScript. -/
def jsSplitLines (s : String) : List String := (splitOnChar '\n' s.data).map String.mk

/-- JSON string escaping as performed by `JSON.stringify` on a string value. -/
def jsonEscapeChar (c : Char) : String :=
  if c = '"' then "\\\""
  else if c = '\\' then "\\\\"
  else if c = '\n' then "\\n"
  else if c = '\r' then "\\r"
  else if c = '\t' then "\\t"
  else if c = Char.ofNat 8 then "\\b"
  else if c = Char.ofNat 12 then "\\f"
  else if c.toNat < 32 then
    "\\u00" ++ String.mk [Nat.digitChar (c.toNat / 16), Nat.digitChar (c.toNat % 16)]
  else String.mk [c]

def jsonEscape (s : String) : String := String.join (s.data.map jsonEscapeChar)

mutual

/-- Model of `JSON.stringify` on a `Json` value. -/
def Json.stringify : Json → String
  | .null => "null"
  | .bool b => if b then "true" else "false"
  | .num n => toString n
  | .str s => "\"" ++ jsonEscape s ++ "\""
  | .arr elems => "[" ++ stringifyElems elems ++ "]"
  | .obj fields => "\x7b" ++ stringifyFields fields ++ "\x7d"

def stringifyElems : List Json → String
  | [] => ""
  | [j] => Json.stringify j
  | j :: rest => Json.stringify j ++ "," ++ stringifyElems rest

def stringifyFields : List (String × Json) → String
  | [] => ""
  | [(k, v)] => "\"" ++ jsonEscape k ++ "\":" ++ Json.stringify v
  | (k, v) :: rest =>
      "\"" ++ jsonEscape k ++ "\":" ++ Json.stringify v ++ "," ++ stringifyFields rest

end

/-- Shell single-quote escaping `.replace(/'/g, "'\\''")` from the source. -/
def shellEscapeSingle (s : String) : String :=
  String.join (s.data.map (fun c => if c = '\'' then "'\\''" else String.mk [c]))

/-! ## Config store (`src/lib/config.ts`, concatenated into `SPEC.md`)

The `conf` library stores a JSON object on disk and overlays the declared
defaults on reads.  `ConfStore` is the stored object: `none` means the key is
absent from the file, `some v` means the key is present with value `v`. -/

/-- The `ZohoConfig` record returned by `getConfig`. -/
structure ZohoConfig where
  region : String
  accountId : String
  userId : String
  defaultFolder : String
deriving Repr, DecidableEq

/-- The on-disk key-value store behind the `conf` instance. -/
structure ConfStore where
  region : Option String
  accountId : Option String
  userId : Option String
  defaultFolder : Option String
deriving Repr, DecidableEq

/-- The `defaults` passed to the `Conf` constructor. -/
def confDefaults : ZohoConfig :=
  { region := "zoho.com", accountId := "", userId := "", defaultFolder := "Inbox" }

/-- A store in which every key is absent (fresh install / after `clear()`). -/
def emptyStore : ConfStore := { region := none, accountId := none, userId := none, defaultFolder := none }

/-- Model of `getConfig()`: each `config.get(key)` returns the stored value or the
declared default. -/
def getConfig (s : ConfStore) : ZohoConfig :=
  { region := s.region.getD confDefaults.region
    accountId := s.accountId.getD confDefaults.accountId
    userId := s.userId.getD confDefaults.userId
    defaultFolder := s.defaultFolder.getD confDefaults.defaultFolder }

/-- The `Partial<ZohoConfig>` argument of `setConfig`: `none` = field absent
(`undefined`), `some v` = field present with value `v`. -/
structure ConfigUpdates where
  region : Option String := none
  accountId : Option String := none
  userId : Option String := none
  defaultFolder : Option String := none
deriving Repr, DecidableEq

/-- Model of `setConfig(updates)`: every field of `updates` that is not `undefined` is
written through `config.set`; the rest of the store is untouched. -/
def setConfig (s : ConfStore) (u : ConfigUpdates) : ConfStore :=
  { region := match u.region with | some v => some v | none => s.region
    accountId := match u.accountId with | some v => some v | none => s.accountId
    userId := match u.userId with | some v => some v | none => s.userId
    defaultFolder := match u.defaultFolder with | some v => some v | none => s.defaultFolder }

/-- Model of `clearConfig()`: `config.clear()` removes every stored key. -/
def clearConfig (_ : ConfStore) : ConfStore := emptyStore

/-- Model of `isConfigured()`: both `accountId` and `userId` are truthy. -/
def isConfigured (s : ConfStore) : Bool :=
  (getConfig s).accountId != "" && (getConfig s).userId != ""

/-- Model of `getPdauthUserId()` from `src/lib/auth.ts`: `config.userId || 'default'`. -/
def getPdauthUserId (s : ConfStore) : String :=
  if (getConfig s).userId = "" then "default" else (getConfig s).userId

/-! ## Auth bridge (`src/lib/auth.ts`, concatenated into `SPEC.MD`)

`checkZohoConnection` shells out to `pdauth status`; the two possible process
outcomes (the `--json` attempt and the plain-text fallback attempt) and the
`JSON.parse` function are passed in as arguments. -/

/-- The regex `/\x7b[\s\S]*\x7d/` applied by `checkZohoConnection`: the match,
if any, spans from the first left brace to the last right brace after it. -/
def braceSpan (s : String) : Option String :=
  let cs := s.data
  match cs.findIdx? (fun c => c = lbrace), cs.reverse.findIdx? (fun c => c = rbrace) with
  | some o, some rrev =>
      let c := cs.length - 1 - rrev
      if o < c then some (String.mk ((cs.drop o).take (c - o + 1))) else none
  | _, _ => none

/-- Model of `\w` of JavaScript regexes (ASCII word character). -/
def wordChar (c : Char) : Bool := c.isAlpha || c.isDigit || c = '_'

/-- Attempt to match `Account ID: (apn_\w+)` at the head of the character
list, returning the capture group. -/
def matchApnAt (cs : List Char) : Option String :=
  let pat := "Account ID: apn_".data
  if isPrefixList pat cs then
    let after := cs.drop pat.length
    let word := after.takeWhile wordChar
    if word.isEmpty then none else some ("apn_" ++ String.mk word)
  else none

/-- First match of `/Account ID: (apn_\w+)/` scanning left to right. -/
def findApnId : List Char → Option String
  | [] => none
  | c :: rest =>
      match matchApnAt (c :: rest) with
      | some hit => some hit
      | none => findApnId rest

/-- The minimal account object built by the plain-text fallback branch. -/
def minimalZohoAccount (idMatch : Option String) (userId : String) : Json :=
  .obj
    [ ("id", .str (idMatch.getD "unknown"))
    , ("name", .str "zoho_mail")
    , ("externalId", .str userId)
    , ("healthy", .bool true)
    , ("app", .obj
        [ ("id", .str "oa_zoho")
        , ("nameSlug", .str "zoho_mail")
        , ("name", .str "Zoho Mail") ]) ]

/-- Model of `status.accounts.find(a => a.app.nameSlug === 'zoho_mail')`.  Property
access inside the predicate can throw a `TypeError` (for instance when
`a.app` is `undefined`), which the caller's `catch` turns into the fallback
branch. -/
def findZoho : List Json → Except String (Option Json)
  | [] => .ok none
  | a :: rest => do
      let app ← jsGetProp a "app"
      match app with
      | none => .error "TypeError: cannot read properties of undefined"
      | some appJson => do
          let ns ← jsGetProp appJson "nameSlug"
          if jsEqStr ns "zoho_mail" then .ok (some a) else findZoho rest

/-- Model of `status.accounts` followed by `.find(...)`: throws when `accounts` is
missing or not an array (calling `.find` on `undefined`/non-array). -/
def getZohoFromStatus (parsed : Json) : Except String (Option Json) := do
  let accounts ← jsGetProp parsed "accounts"
  match accounts with
  | some (.arr elems) => findZoho elems
  | _ => .error "TypeError: accounts.find is not a function"

/-- Model of `checkZohoConnection()` from `src/lib/auth.ts`.

`proc1` is the outcome of `execSync('pdauth status --user U --json 2>&1')`,
`proc2` the outcome of the fallback `execSync('pdauth status --user U 2>&1')`
(only consulted on the fallback path), and `parse` is `JSON.parse`.  The
function returns the Zoho account object or `none`; it has no error
alternative, mirroring the source's catch-all structure. -/
def checkZohoConnection (parse : String → Except String Json) (userId : String)
    (proc1 proc2 : Except String String) : Option Json :=
  let fallback : Option Json :=
    match proc2 with
    | .error _ => none
    | .ok out2 =>
        if containsStr out2 "zoho_mail" && containsStr out2 "healthy" then
          some (minimalZohoAccount (findApnId out2.data) userId)
        else none
  match proc1 with
  | .error _ => fallback
  | .ok out1 =>
      match braceSpan out1 with
      | none => none
      | some block =>
          match parse block with
          | .error _ => fallback
          | .ok parsed =>
              match getZohoFromStatus parsed with
              | .error _ => fallback
              | .ok found => found

/-! ## API client (`src/lib/client.ts`)

Every client operation is modelled as a pair: the list of external `pdauth`
command invocations it issues, and its outcome.  The ten unsupported
operations issue no invocation and fail immediately; `proxyCall` and
`sendEmail` issue exactly one. -/

/-- The `ProxyCallResult` interface of `src/lib/client.ts`. -/
structure ProxyCallResult where
  success : Bool
  data : Option Json
  error : Option String
deriving Repr

/-- The optional chain `parsed.content?.[0]?.text` of `proxyCall`.  The only
way it throws is the initial non-optional access on a `null` receiver; the
`?.` steps short-circuit `null`/`undefined` to `undefined`. -/
def contentText (parsed : Json) : Except String (Option Json) := do
  let content ← jsGetProp parsed "content"
  match content with
  | none => .ok none
  | some .null => .ok none
  | some contentVal =>
      match jsIndex contentVal 0 with
      | none => .ok none
      | some .null => .ok none
      | some elemVal => jsGetProp elemVal "text"

/-- The instruction string built by `proxyCall`. -/
def proxyInstruction (region method path : String) (data : Option Json) : String :=
  let baseUrl := "https://mail." ++ (if region = "" then "zoho.com" else region)
  let url := baseUrl ++ path
  "Make a " ++ method ++ " request to " ++ url ++
    (match data with
     | some d => " with body: " ++ Json.stringify d
     | none => "")

/-- The `pdauth call` command string built by `proxyCall` and `sendEmail`
from a `JSON.stringify({ instruction })` argument. -/
def pdauthCallCmd (userId instruction : String) : String :=
  let args := Json.stringify (.obj [("instruction", .str instruction)])
  "pdauth call zoho_mail.zoho_mail-send-email --user " ++ userId ++
    " --args '" ++ shellEscapeSingle args ++ "'"

/-- Model of `proxyCall(method, path, data?)` from `src/lib/client.ts` (lines 25-78).

`parse` is `JSON.parse` and `proc` the outcome of the single `execSync`
invocation.  Returns the issued command list (always exactly one command)
together with the `ProxyCallResult`.  The source's `try`/`catch` turns any
thrown error (process failure, `JSON.parse` failure, `TypeError` in the
optional chain) into `{ success: false, error: message }`. -/
def proxyCall (parse : String → Except String Json) (userId region : String)
    (method path : String) (data : Option Json) (proc : Except String String) :
    List String × ProxyCallResult :=
  let cmd := pdauthCallCmd userId (proxyInstruction region method path data)
  ( [cmd],
    match proc with
    | .error msg => { success := false, data := none, error := some msg }
    | .ok result =>
        let lines := jsSplitLines (jsTrim result)
        match lines.find? (fun line => line.data.head? = some lbrace) with
        | none => { success := false, data := none, error := some "Unexpected response format" }
        | some jsonLine =>
            match parse jsonLine with
            | .error msg => { success := false, data := none, error := some msg }
            | .ok parsed =>
                match contentText parsed with
                | .error msg => { success := false, data := none, error := some msg }
                | .ok textVal =>
                    if jsTruthy textVal then
                      { success := true, data := textVal, error := none }
                    else
                      { success := false, data := none, error := some "Unexpected response format" } )

/-- Outcome of a client operation: issued external commands plus result. -/
abbrev ClientResult (α : Type) : Type := List String × Except String α

/-- Model of `getAccounts()`: immediate capability failure, no external invocation. -/
def getAccounts : ClientResult (List Json) :=
  ([], .error "Zoho Mail MCP integration does not support listing accounts. Direct API access needed.")

/-- Model of `getFolders(accountId)`: immediate capability failure. -/
def getFolders (_accountId : String) : ClientResult (List Json) :=
  ([], .error "Zoho Mail MCP integration does not support listing folders. Direct API access needed.")

/-- Model of `createFolder(accountId, name, parentId?)`: immediate capability failure. -/
def createFolder (_accountId _name : String) (_parentId : Option String) : ClientResult Json :=
  ([], .error "Zoho Mail MCP integration does not support creating folders. Direct API access needed.")

/-- Model of `deleteFolder(accountId, folderId)`: immediate capability failure. -/
def deleteFolder (_accountId _folderId : String) : ClientResult Bool :=
  ([], .error "Zoho Mail MCP integration does not support deleting folders. Direct API access needed.")

/-- Model of `getLabels(accountId)`: immediate capability failure. -/
def getLabels (_accountId : String) : ClientResult (List Json) :=
  ([], .error "Zoho Mail MCP integration does not support listing labels. Direct API access needed.")

/-- Model of `createLabel(accountId, name, color?)`: immediate capability failure. -/
def createLabel (_accountId _name : String) (_color : Option String) : ClientResult Json :=
  ([], .error "Zoho Mail MCP integration does not support creating labels. Direct API access needed.")

/-- Model of `deleteLabel(accountId, labelId)`: immediate capability failure. -/
def deleteLabel (_accountId _labelId : String) : ClientResult Bool :=
  ([], .error "Zoho Mail MCP integration does not support deleting labels. Direct API access needed.")

/-- Model of `getEmails(accountId, folderId, options?)`: immediate capability failure. -/
def getEmails (_accountId _folderId : String) : ClientResult (List Json) :=
  ([], .error "Zoho Mail MCP integration does not support listing emails. Direct API access needed.")

/-- Model of `getEmailContent(accountId, folderId, messageId)`: immediate capability failure. -/
def getEmailContent (_accountId _folderId _messageId : String) : ClientResult Json :=
  ([], .error "Zoho Mail MCP integration does not support reading emails. Direct API access needed.")

/-- Model of `searchEmails(accountId, query, options?)`: immediate capability failure. -/
def searchEmails (_accountId _query : String) : ClientResult (List Json) :=
  ([], .error "Zoho Mail MCP integration does not support searching emails. Direct API access needed.")

/-- The options object of `sendEmail`. -/
structure SendEmailOptions where
  «to» : String
  subject : String
  content : String
  cc : Option String := none
  bcc : Option String := none
  isHtml : Bool := false
deriving Repr, DecidableEq

/-- The free-text instruction `sendEmail` builds: only `to`, `subject` and
`content` appear in it; `accountId`, `cc`, `bcc` and `isHtml` are unused. -/
def sendInstruction (opts : SendEmailOptions) : String :=
  "Send an email to " ++ opts.«to» ++ " with subject \"" ++ opts.subject ++
    "\" and body: " ++ opts.content

/-- Model of `sendEmail(accountId, options)` from `src/lib/client.ts` (lines 227-262).
Issues one `pdauth call zoho_mail.zoho_mail-send-email` invocation; on
process success the returned boolean is whether the lowercased output
contains `'success'` or `'sent'`; on process failure it throws
`Failed to send email: ...`. -/
def sendEmail (userId : String) (_accountId : String) (opts : SendEmailOptions)
    (proc : Except String String) : ClientResult Bool :=
  ( [pdauthCallCmd userId (sendInstruction opts)],
    match proc with
    | .ok result =>
        .ok (containsStr (jsToLower result) "success" || containsStr (jsToLower result) "sent")
    | .error msg => .error ("Failed to send email: " ++ msg) )

/-! ## Output formatter icon derivation (`src/lib/output.ts`, lines 141-156)

The runtime email record's status fields arrive in heterogeneous encodings,
so the relevant fields are modelled as possibly-`undefined` JSON values. -/

/-- The dynamic fields of an email record that `getEmailStatusIcon` reads. -/
structure EmailStatusFields where
  status : Option Json := none
  status2 : Option Json := none
  flagid : Option Json := none
  hasAttachment : Option Json := none
deriving Repr

/-- Model of `email.status === '0' || email.status2 === '0'` (unread dot). -/
def unreadCond (e : EmailStatusFields) : Bool :=
  jsEqStr e.status "0" || jsEqStr e.status2 "0"

/-- Model of `email.flagid && email.flagid !== 'flag_not_set' && email.flagid !== '0'`. -/
def flagCond (e : EmailStatusFields) : Bool :=
  jsTruthy e.flagid && !(jsEqStr e.flagid "flag_not_set") && !(jsEqStr e.flagid "0")

/-- JavaScript strict equality `v === true`. -/
def jsEqTrue : Option Json → Bool
  | some (.bool b) => b
  | _ => false

/-- Model of `hasAtt === true || hasAtt === '1' || hasAtt === 'true'`. -/
def attachmentCond (e : EmailStatusFields) : Bool :=
  jsEqTrue e.hasAttachment || jsEqStr e.hasAttachment "1" ||
    jsEqStr e.hasAttachment "true"

/-- Model of `getEmailStatusIcon(email)` from `src/lib/output.ts`: append `●` when the
unread condition holds, `⭐` when the flag condition holds, `📎` when the
attachment condition holds; return `-` when nothing was appended. -/
def getEmailStatusIcon (e : EmailStatusFields) : String :=
  let icons :=
    (if unreadCond e then "●" else "") ++
    (if flagCond e then "⭐" else "") ++
    (if attachmentCond e then "📎" else "")
  if icons = "" then "-" else icons

/-! ## Update-message endpoint (modelled from the spec)

`src/commands/mail.ts` imports and calls `updateMessage` from
`src/lib/client.ts`, but no `updateMessage` definition appears anywhere under
`src/`. -/

/-- The closed set of action modes of `updateMessage`. -/
inductive UpdateMode where
  | markAsRead | markAsUnread | moveToFolder | addFlag | removeFlag
  | addTag | removeTag | archive | unarchive | spam | notSpam
deriving Repr, DecidableEq

/-- The options object passed to `updateMessage` by its callers. -/
structure UpdateOptions where
  mode : UpdateMode
  folderId : Option String := none
  tagId : Option String := none
deriving Repr, DecidableEq

/-- A structured REST request issued to the remote API. -/
structure ApiRequest where
  method : String
  path : String
  mode : UpdateMode
  messageId : String
  extraId : Option String
deriving Repr, DecidableEq

/-- Modelled from the spec: `updateMessage` is imported by
`src/commands/mail.ts` but its body is not present under `src/`.  Per the
spec, it is a mutating operation on `PUT /accounts/{accountId}/updatemessage`
parameterized by a closed set of action modes; exactly one mode is valid per
call; `moveToFolder` requires a destination folder id and `addTag`/`removeTag`
require a label id, omission being an argument validation error raised before
any server call. -/
def updateMessage (accountId messageId : String) (opts : UpdateOptions) :
    List ApiRequest × Except String Unit :=
  match opts.mode, opts.folderId, opts.tagId with
  | .moveToFolder, none, _ =>
      ([], .error "validation error: moveToFolder requires a destination folder id")
  | .addTag, _, none =>
      ([], .error "validation error: addTag requires a label id")
  | .removeTag, _, none =>
      ([], .error "validation error: removeTag requires a label id")
  | .moveToFolder, some fid, _ =>
      ([{ method := "PUT", path := "/accounts/" ++ accountId ++ "/updatemessage",
          mode := .moveToFolder, messageId := messageId, extraId := some fid }], .ok ())
  | .addTag, _, some tid =>
      ([{ method := "PUT", path := "/accounts/" ++ accountId ++ "/updatemessage",
          mode := .addTag, messageId := messageId, extraId := some tid }], .ok ())
  | .removeTag, _, some tid =>
      ([{ method := "PUT", path := "/accounts/" ++ accountId ++ "/updatemessage",
          mode := .removeTag, messageId := messageId, extraId := some tid }], .ok ())
  | m, _, _ =>
      ([{ method := "PUT", path := "/accounts/" ++ accountId ++ "/updatemessage",
          mode := m, messageId := messageId, extraId := none }], .ok ())

/-! ## Spec-side definitions (for comparison with the source behavior)

These two definitions follow the words of the specification's
`proxyRequest` contract (`{status:{code,description}, data:T}` envelope),
not the source; they are used to state refutations. -/

/-- Following the spec's words: the `status.code` of a parsed response
envelope `{status:{code,description}, data}`. -/
def specStatusCode (envelope : Json) : Option Int :=
  match envelope with
  | .obj fields =>
      match lookupField fields "status" with
      | some (.obj statusFields) =>
          match lookupField statusFields "code" with
          | some (.num n) => some n
          | _ => none
      | _ => none
  | _ => none

/-- Following the spec's words: the `data` field of a parsed response
envelope. -/
def specEnvelopeData (envelope : Json) : Option Json :=
  match envelope with
  | .obj fields => lookupField fields "data"
  | _ => none

/-! ## Command layer (`src/commands/{auth,mail,folders,labels}.ts`)

Each command action is modelled as a function from its inputs (connection
state, config store, CLI options, process outcomes) to an `ActionOutcome`:
the list of external client invocations it issued, the process exit code
(`0` = success, `1` = reported error), and whether it printed the destructive
no-op warning (`Run with --force to confirm.`) and returned. -/

structure ActionOutcome where
  apiCalls : List String
  exitCode : Nat
  warnedNoop : Bool
deriving Repr, DecidableEq

/-- Truthiness of an optional CLI string option (`undefined` and `""` are
falsy in JavaScript). -/
def optTruthy : Option String → Bool
  | none => false
  | some s => s != ""

/-- The userId-defaulting phase at the top of the `auth login` action
(`src/commands/auth.ts`, lines 26-31): a provided truthy `--user` is written;
otherwise, when the config holds no truthy userId, the hard-coded default
`telegram:5439689035` is written. -/
def authLoginUserPhase (userOpt : Option String) (s : ConfStore) : ConfStore :=
  if optTruthy userOpt then setConfig s { userId := userOpt }
  else if (getConfig s).userId = "" then setConfig s { userId := some "telegram:5439689035" }
  else s

/-- Model of `auth login` up to and including its connection probe: returns the store
after the userId phase together with the `--user` id that the immediately
following `checkZohoConnection()` call passes to `pdauth status`. -/
def authLogin (userOpt : Option String) (s : ConfStore) : ConfStore × String :=
  let s1 := authLoginUserPhase userOpt s
  (s1, getPdauthUserId s1)

/-- The valid-region list of `auth set-region`. -/
def validRegions : List String := ["zoho.com", "zoho.eu", "zoho.in", "zoho.com.au", "zoho.jp"]

/-- Model of `auth set-region <region>`: rejects regions outside the closed list with
exit 1 and no write; otherwise writes the region. -/
def authSetRegion (region : String) (s : ConfStore) : ConfStore × Nat :=
  if validRegions.contains region then (setConfig s { region := some region }, 0)
  else (s, 1)

/-- Model of `auth set-account <accountId>`: writes the argument unconditionally. -/
def authSetAccount (accountId : String) (s : ConfStore) : ConfStore :=
  setConfig s { accountId := some accountId }

/-- Model of `ensureAccountId()` from `src/commands/mail.ts` (and the labels command
file): a truthy configured accountId is returned as-is; otherwise the
account-detection call `getAccountId()` runs (imported by the commands but
not present under `src/`, hence an oracle argument here) and its result is
written to the config; on detection failure the action exits 1 (`none`). -/
def ensureAccountId (detect : Except String String) (s : ConfStore) :
    ConfStore × Option String :=
  if (getConfig s).accountId ≠ "" then (s, some (getConfig s).accountId)
  else
    match detect with
    | .ok accountId => (setConfig s { accountId := some accountId }, some accountId)
    | .error _ => (s, none)

/-- Model of `requireAccountId()` from `src/commands/folders.ts`: read-only truthiness
check of the configured accountId. -/
def requireAccountId (s : ConfStore) : Option String :=
  if (getConfig s).accountId ≠ "" then some (getConfig s).accountId else none

/-- Model of `folders delete <folderId> [--force]` (`src/commands/folders.ts`, lines
94-122).  `connected` is the `requireAuth()` probe outcome. -/
def foldersDeleteAction (connected : Bool) (s : ConfStore) (folderId : String)
    (force : Bool) : ActionOutcome :=
  if !connected then { apiCalls := [], exitCode := 1, warnedNoop := false }
  else
    match requireAccountId s with
    | none => { apiCalls := [], exitCode := 1, warnedNoop := false }
    | some accountId =>
        if !force then { apiCalls := [], exitCode := 0, warnedNoop := true }
        else
          let (calls, result) := deleteFolder accountId folderId
          match result with
          | .ok _ => { apiCalls := calls, exitCode := 0, warnedNoop := false }
          | .error _ => { apiCalls := calls, exitCode := 1, warnedNoop := false }

/-- Model of `folders empty <folderId> [--force]` (`src/commands/folders.ts`): without
`--force` it warns and returns; with `--force` it reports "not yet
implemented" and exits 1, issuing no client call. -/
def foldersEmptyAction (connected : Bool) (s : ConfStore) (_folderId : String)
    (force : Bool) : ActionOutcome :=
  if !connected then { apiCalls := [], exitCode := 1, warnedNoop := false }
  else
    match requireAccountId s with
    | none => { apiCalls := [], exitCode := 1, warnedNoop := false }
    | some _ =>
        if !force then { apiCalls := [], exitCode := 0, warnedNoop := true }
        else { apiCalls := [], exitCode := 1, warnedNoop := false }

/-- Model of `labels delete <labelId> [--force]` (labels command file). -/
def labelsDeleteAction (connected : Bool) (detect : Except String String)
    (s : ConfStore) (labelId : String) (force : Bool) : ActionOutcome :=
  if !connected then { apiCalls := [], exitCode := 1, warnedNoop := false }
  else
    match (ensureAccountId detect s).2 with
    | none => { apiCalls := [], exitCode := 1, warnedNoop := false }
    | some accountId =>
        if !force then { apiCalls := [], exitCode := 0, warnedNoop := true }
        else
          let (calls, result) := deleteLabel accountId labelId
          match result with
          | .ok _ => { apiCalls := calls, exitCode := 0, warnedNoop := false }
          | .error _ => { apiCalls := calls, exitCode := 1, warnedNoop := false }

/-- Model of `mail delete <messageId> [--folder <folderId>] [--force]`
(`src/commands/mail.ts`, lines 260-288).  Without `--force` it warns and
returns before any client call.  With `--force` and no truthy `--folder`, it
looks up the Inbox id via `getFolders`, which fails with the capability
error, so the action exits 1; with a truthy `--folder` it calls
`deleteEmail` (imported but not present under `src/`, hence the `delE`
oracle). -/
def mailDeleteAction (connected : Bool) (detect : Except String String)
    (s : ConfStore) (_messageId : String) (folderOpt : Option String)
    (force : Bool) (delE : Except String Bool) : ActionOutcome :=
  if !connected then { apiCalls := [], exitCode := 1, warnedNoop := false }
  else
    match (ensureAccountId detect s).2 with
    | none => { apiCalls := [], exitCode := 1, warnedNoop := false }
    | some accountId =>
        if !force then { apiCalls := [], exitCode := 0, warnedNoop := true }
        else
          if optTruthy folderOpt then
            match delE with
            | .ok _ => { apiCalls := [], exitCode := 0, warnedNoop := false }
            | .error _ => { apiCalls := [], exitCode := 1, warnedNoop := false }
          else
            let (calls, result) := getFolders accountId
            match result with
            | .error _ => { apiCalls := calls, exitCode := 1, warnedNoop := false }
            | .ok _ => { apiCalls := calls, exitCode := 1, warnedNoop := false }

/-- The CLI options of `mail send`. -/
structure MailSendCmdOptions where
  «to» : Option String := none
  cc : Option String := none
  bcc : Option String := none
  subject : Option String := none
  body : Option String := none
  html : Bool := false
  attach : Option String := none
deriving Repr

/-- Model of `mail send` (`src/commands/mail.ts`, lines 181-233): after the auth and
accountId gates it validates `--to`, `--subject`, `--body` (and rejects
`--attach`), then calls `sendEmail` once; it reports success (`Email
sent!`, exit 0) whenever `sendEmail` did not throw — the boolean that
`sendEmail` returns is discarded. -/
def mailSendAction (connected : Bool) (detect : Except String String)
    (s : ConfStore) (opts : MailSendCmdOptions) (proc : Except String String) :
    ActionOutcome :=
  if !connected then { apiCalls := [], exitCode := 1, warnedNoop := false }
  else
    let (s1, accountIdOpt) := ensureAccountId detect s
    match accountIdOpt with
    | none => { apiCalls := [], exitCode := 1, warnedNoop := false }
    | some accountId =>
        if !optTruthy opts.«to» then { apiCalls := [], exitCode := 1, warnedNoop := false }
        else if !optTruthy opts.subject then { apiCalls := [], exitCode := 1, warnedNoop := false }
        else if !optTruthy opts.body then { apiCalls := [], exitCode := 1, warnedNoop := false }
        else if optTruthy opts.attach then { apiCalls := [], exitCode := 1, warnedNoop := false }
        else
          let sendOpts : SendEmailOptions :=
            { «to» := opts.«to».getD "", subject := opts.subject.getD "",
              content := opts.body.getD "", cc := opts.cc, bcc := opts.bcc,
              isHtml := opts.html }
          let (calls, result) := sendEmail (getPdauthUserId s1) accountId sendOpts proc
          match result with
          | .ok _ => { apiCalls := calls, exitCode := 0, warnedNoop := false }
          | .error _ => { apiCalls := calls, exitCode := 1, warnedNoop := false }

/-- The config consistency invariant named by the spec: `accountId` and
`userId`, if set in the store, are non-empty strings. -/
def StoreIdInvariant (s : ConfStore) : Prop :=
  s.accountId ≠ some "" ∧ s.userId ≠ some ""

/-! ## Claim C7 — config round-trip -/

/-- C7: for every starting config state and every string `X`,
`setConfig({accountId: X})` followed by `getConfig()` returns a config whose
`accountId` is `X` and whose `region`, `userId` and `defaultFolder` are
unchanged; and `clearConfig()` followed by `getConfig()` returns the default
values for all four fields. -/
theorem C7_config_roundtrip (s : ConfStore) (X : String) :
    (getConfig (setConfig s { accountId := some X })).accountId = X ∧
    (getConfig (setConfig s { accountId := some X })).region = (getConfig s).region ∧
    (getConfig (setConfig s { accountId := some X })).userId = (getConfig s).userId ∧
    (getConfig (setConfig s { accountId := some X })).defaultFolder = (getConfig s).defaultFolder ∧
    getConfig (clearConfig s) = confDefaults :=
  ⟨rfl, rfl, rfl, rfl, rfl⟩

/-! ## Claim C10 — implicit default userId on `auth login` -/

/-- C10: `auth login` with no `--user` option and no userId already stored
writes the hard-coded default `telegram:5439689035` into the persistent
config, and the connection check that follows runs with that userId (so the
write happens before the check). -/
theorem C10_login_default_user (s : ConfStore) (h : (getConfig s).userId = "") :
    (authLoginUserPhase none s).userId = some "telegram:5439689035" ∧
    (authLogin none s).2 = "telegram:5439689035" := by
  have hstep : authLoginUserPhase none s = setConfig s { userId := some "telegram:5439689035" } := by
    simp [authLoginUserPhase, optTruthy, h]
  constructor
  · rw [hstep]; rfl
  · show getPdauthUserId (authLoginUserPhase none s) = "telegram:5439689035"
    rw [hstep]; rfl

/-- Witness for C10 at the empty store (fresh install, nothing configured). -/
theorem C10_witness :
    (getConfig emptyStore).userId = "" ∧
    ((authLoginUserPhase none emptyStore).userId = some "telegram:5439689035" ∧
      (authLogin none emptyStore).2 = "telegram:5439689035") :=
  ⟨rfl, C10_login_default_user emptyStore rfl⟩

/-! ## Claim C3 — capability gate on every non-send operation -/

/-- C3: each of the ten non-send client operations fails immediately with an
error naming the missing capability and issues no external invocation (its
command list is empty). -/
theorem C3_capability_gates :
    getAccounts = ([], .error "Zoho Mail MCP integration does not support listing accounts. Direct API access needed.") ∧
    (∀ a, getFolders a = ([], .error "Zoho Mail MCP integration does not support listing folders. Direct API access needed.")) ∧
    (∀ a n p, createFolder a n p = ([], .error "Zoho Mail MCP integration does not support creating folders. Direct API access needed.")) ∧
    (∀ a f, deleteFolder a f = ([], .error "Zoho Mail MCP integration does not support deleting folders. Direct API access needed.")) ∧
    (∀ a, getLabels a = ([], .error "Zoho Mail MCP integration does not support listing labels. Direct API access needed.")) ∧
    (∀ a n c, createLabel a n c = ([], .error "Zoho Mail MCP integration does not support creating labels. Direct API access needed.")) ∧
    (∀ a l, deleteLabel a l = ([], .error "Zoho Mail MCP integration does not support deleting labels. Direct API access needed.")) ∧
    (∀ a f, getEmails a f = ([], .error "Zoho Mail MCP integration does not support listing emails. Direct API access needed.")) ∧
    (∀ a f m, getEmailContent a f m = ([], .error "Zoho Mail MCP integration does not support reading emails. Direct API access needed.")) ∧
    (∀ a q, searchEmails a q = ([], .error "Zoho Mail MCP integration does not support searching emails. Direct API access needed.")) :=
  ⟨rfl, fun _ => rfl, fun _ _ _ => rfl, fun _ _ => rfl, fun _ => rfl, fun _ _ _ => rfl,
    fun _ _ => rfl, fun _ _ => rfl, fun _ _ _ => rfl, fun _ _ => rfl⟩

/-! ## Claim C6 — email status / attachment normalization -/

/-- C6 counterexample: the claim says an absent status and a false-equivalent
status both normalize to "unread", but `getEmailStatusIcon` shows the unread
marker `●` only for the string `'0'`: with both status fields absent (or
`status` strictly `false`) the icon is `-`, which carries no unread marker. -/
theorem C6_counterexample :
    getEmailStatusIcon { status := none, status2 := none, flagid := none, hasAttachment := none } = "-" ∧
    getEmailStatusIcon { status := some (.bool false), status2 := none, flagid := none, hasAttachment := none } = "-" ∧
    containsStr "-" "●" = false :=
  ⟨rfl, rfl, rfl⟩

/-- C6 amended: the unread marker appears iff `status` or `status2` is the
string `'0'` (false-equivalent and absent values therefore render as read),
and the attachment marker appears iff `hasAttachment` is `true`, `'1'` or
`'true'` — exactly as the claim states for the attachment flag. -/
theorem C6_status_attachment_normalization (e : EmailStatusFields) :
    containsStr (getEmailStatusIcon e) "●" = unreadCond e ∧
    containsStr (getEmailStatusIcon e) "📎" = attachmentCond e := by
  cases hu : unreadCond e <;> cases hf : flagCond e <;> cases ha : attachmentCond e <;>
    simp only [getEmailStatusIcon, hu, hf, ha] <;> exact ⟨by decide, by decide⟩

/-! ## Claim C9 — non-empty id invariant across config writers -/

/-- C9 counterexample: `auth set-account` writes its argument without any
validation, so invoking it with an empty account id stores the empty string,
violating the "accountId, if set, is non-empty" invariant. -/
theorem C9_counterexample :
    StoreIdInvariant emptyStore ∧ ¬ StoreIdInvariant (authSetAccount "" emptyStore) := by
  constructor
  · exact ⟨by simp [emptyStore], by simp [emptyStore]⟩
  · intro hinv
    exact hinv.1 rfl

/-- C9 amended: the `auth login` userId phase and `auth set-region` preserve
the non-empty-id invariant unconditionally; `auth set-account` and the
automatic account-id detection write-through preserve it exactly when the id
they write is non-empty (with an empty argument, `auth set-account` violates
it, as the counterexample shows). -/
theorem C9_config_writers_invariant (s : ConfStore) (userOpt : Option String)
    (region accountId : String) (detect : Except String String)
    (hs : StoreIdInvariant s) (hacc : accountId ≠ "")
    (hdet : ∀ id, detect = .ok id → id ≠ "") :
    StoreIdInvariant (authLoginUserPhase userOpt s) ∧
    StoreIdInvariant (authSetRegion region s).1 ∧
    StoreIdInvariant (authSetAccount accountId s) ∧
    StoreIdInvariant (ensureAccountId detect s).1 := by
  obtain ⟨hsa, hsu⟩ := hs
  refine ⟨?_, ?_, ?_, ?_⟩
  · unfold authLoginUserPhase
    by_cases htr : optTruthy userOpt = true
    · rw [if_pos htr]
      match userOpt, htr with
      | some u, htr =>
          refine ⟨hsa, ?_⟩
          have hu : u ≠ "" := by simpa [optTruthy] using htr
          simp [setConfig, hu]
    · rw [if_neg htr]
      by_cases hdef : (getConfig s).userId = ""
      · rw [if_pos hdef]
        exact ⟨hsa, by simp [setConfig]⟩
      · rw [if_neg hdef]
        exact ⟨hsa, hsu⟩
  · unfold authSetRegion
    by_cases hv : validRegions.contains region = true
    · rw [if_pos hv]
      exact ⟨hsa, hsu⟩
    · rw [if_neg hv]
      exact ⟨hsa, hsu⟩
  · exact ⟨by simp [authSetAccount, setConfig, hacc], hsu⟩
  · unfold ensureAccountId
    by_cases hcfg : (getConfig s).accountId ≠ ""
    · rw [if_pos hcfg]
      exact ⟨hsa, hsu⟩
    · rw [if_neg hcfg]
      match detect, hdet with
      | .ok id, hdet =>
          exact ⟨by simp [setConfig, hdet id rfl], hsu⟩
      | .error _, _ => exact ⟨hsa, hsu⟩

/-- Witness for C9 at concrete inputs (fresh store, no `--user`, region
`zoho.eu`, account id `A123`, failing detection). -/
theorem C9_witness :
    StoreIdInvariant emptyStore ∧ ("A123" : String) ≠ "" ∧
    (StoreIdInvariant (authLoginUserPhase none emptyStore) ∧
      StoreIdInvariant (authSetRegion "zoho.eu" emptyStore).1 ∧
      StoreIdInvariant (authSetAccount "A123" emptyStore) ∧
      StoreIdInvariant (ensureAccountId (.error "detect failed") emptyStore).1) :=
  ⟨⟨by simp [emptyStore], by simp [emptyStore]⟩, by decide,
    C9_config_writers_invariant emptyStore none "zoho.eu" "A123" (.error "detect failed")
      ⟨by simp [emptyStore], by simp [emptyStore]⟩ (by decide)
      (fun id h => Except.noConfusion h)⟩

/-! ## Claim C4 — update-message modes and validation (spec-modelled) -/

/-- C4: each `updateMessage` call sends exactly one action mode — every
request it issues carries the call's single mode and a successful call issues
exactly one request — and a `moveToFolder` call without a destination folder
id, or an `addTag`/`removeTag` call without a label id, fails with an
argument validation error having issued no request.  (`updateMessage` itself
is modelled from the spec: its body is absent from `src/`.) -/
theorem C4_updateMessage_modes (accountId messageId : String) (opts : UpdateOptions) :
    (opts.mode = .moveToFolder → opts.folderId = none →
      updateMessage accountId messageId opts =
        ([], .error "validation error: moveToFolder requires a destination folder id")) ∧
    (opts.mode = .addTag → opts.tagId = none →
      updateMessage accountId messageId opts =
        ([], .error "validation error: addTag requires a label id")) ∧
    (opts.mode = .removeTag → opts.tagId = none →
      updateMessage accountId messageId opts =
        ([], .error "validation error: removeTag requires a label id")) ∧
    (∀ req, req ∈ (updateMessage accountId messageId opts).1 → req.mode = opts.mode) ∧
    ((updateMessage accountId messageId opts).2 = .ok () →
      (updateMessage accountId messageId opts).1.length = 1) := by
  obtain ⟨mode, folderId, tagId⟩ := opts
  cases mode <;> cases folderId <;> cases tagId <;>
    simp [updateMessage]

/-- Witness for C4: a `moveToFolder` call without a folder id fails
validation, and a `markAsRead` call issues one request carrying that mode. -/
theorem C4_witness :
    (updateMessage "A1" "M1" { mode := .moveToFolder } =
      ([], .error "validation error: moveToFolder requires a destination folder id")) ∧
    (∀ req, req ∈ (updateMessage "A1" "M1" { mode := .markAsRead }).1 → req.mode = .markAsRead) ∧
    ((updateMessage "A1" "M1" { mode := .markAsRead }).2 = .ok () →
      (updateMessage "A1" "M1" { mode := .markAsRead }).1.length = 1) :=
  ⟨(C4_updateMessage_modes "A1" "M1" { mode := .moveToFolder }).1 rfl rfl,
    (C4_updateMessage_modes "A1" "M1" { mode := .markAsRead }).2.2.2.1,
    (C4_updateMessage_modes "A1" "M1" { mode := .markAsRead }).2.2.2.2⟩

/-! ## Claim C5 — connection probe never raises, tolerates both shapes -/

/-- C5: `checkZohoConnection` is a total function into `Option` — it has no
exception alternative for any combination of process and parse outcomes — and
(1) a structured-JSON response containing a `zoho_mail` account yields that
account, (2) after a process or parse failure the freeform-text shape is
tolerated and yields the minimal account object, while (3)-(5) every
unrecoverable process/parse failure path yields `none` rather than an
exception. -/
theorem C5_checkConnection_soft (parse : String → Except String Json) (userId : String)
    (out1 out2 block e1 e2 ep : String) (parsed acct : Json) :
    (braceSpan out1 = some block → parse block = .ok parsed →
      getZohoFromStatus parsed = .ok (some acct) →
      checkZohoConnection parse userId (.ok out1) (.ok out2) = some acct) ∧
    (containsStr out2 "zoho_mail" = true → containsStr out2 "healthy" = true →
      checkZohoConnection parse userId (.error e1) (.ok out2) =
        some (minimalZohoAccount (findApnId out2.data) userId)) ∧
    (checkZohoConnection parse userId (.error e1) (.error e2) = none) ∧
    (braceSpan out1 = some block → parse block = .error ep →
      checkZohoConnection parse userId (.ok out1) (.error e2) = none) ∧
    (braceSpan out1 = none →
      checkZohoConnection parse userId (.ok out1) (.ok out2) = none) := by
  refine ⟨?_, ?_, ?_, ?_, ?_⟩
  · intro hb hp hz
    simp [checkZohoConnection, hb, hp, hz]
  · intro hz hh
    simp [checkZohoConnection, hz, hh]
  · rfl
  · intro hb hp
    simp [checkZohoConnection, hb, hp]
  · intro hb
    simp [checkZohoConnection, hb]

/-- Concrete structured-JSON probe output for the C5 witness: a spinner line
followed by a JSON status block listing a `zoho_mail` account. -/
def c5Account : Json := .obj [("app", .obj [("nameSlug", .str "zoho_mail")])]

def c5Parsed : Json := .obj [("accounts", .arr [c5Account])]

def c5Block : String := "\x7b\"accounts\":[\x7b\"app\":\x7b\"nameSlug\":\"zoho_mail\"\x7d\x7d]\x7d"

def c5Out1 : String := "- Fetching status...\n" ++ c5Block

/-- Concrete freeform-text probe output for the C5 witness. -/
def c5Text : String := "zoho_mail connection healthy\nAccount ID: apn_abc123"

/-- A concrete `JSON.parse` behavior for the C5 witness. -/
def c5Parse : String → Except String Json :=
  fun s => if s = c5Block then .ok c5Parsed else .error "Unexpected token"

/-- Witness for C5: the structured shape returns the parsed account, the
freeform shape (after a process error on the JSON attempt) returns the
minimal account, and a double process failure returns `none`. -/
theorem C5_witness :
    checkZohoConnection c5Parse "u1" (.ok c5Out1) (.ok "ignored") = some c5Account ∧
    checkZohoConnection c5Parse "u1" (.error "boom") (.ok c5Text) =
      some (minimalZohoAccount (findApnId c5Text.data) "u1") ∧
    checkZohoConnection c5Parse "u1" (.error "boom") (.error "also down") = none := by
  have h := C5_checkConnection_soft c5Parse "u1" c5Out1 c5Text c5Block "boom" "also down"
    "unused" c5Parsed c5Account
  exact ⟨h.1 (by decide) (by simp [c5Parse]) rfl, h.2.1 (by decide) (by decide), h.2.2.1⟩

/-! ## Claim C1 — the core request primitive `proxyCall` -/

/-- Concrete process output for the C1 counterexample: a response envelope
whose `status.code` is `500` but whose `content[0].text` is present. -/
def c1Envelope : String :=
  "\x7b\"status\":\x7b\"code\":500,\"description\":\"Server Error\"\x7d,\"content\":[\x7b\"text\":\"PAYLOAD\"\x7d]\x7d"

def c1Json : Json :=
  .obj
    [ ("status", .obj [("code", .num 500), ("description", .str "Server Error")])
    , ("content", .arr [.obj [("text", .str "PAYLOAD")]]) ]

/-- A concrete `JSON.parse` behavior for the C1 theorems. -/
def c1Parse : String → Except String Json :=
  fun s => if s = c1Envelope then .ok c1Json else .error "Unexpected token"

/-- C1 counterexample: the claim says a `status.code` other than 200 raises
an `ApiError` and only a 200 envelope's `data` field is returned; but on an
envelope with `status.code = 500` (and no `data` field at all) `proxyCall`
reports success and returns `content[0].text` — it never inspects
`status.code`.  Moreover, when no JSON block is found it returns a failure
value `{success: false, error: 'Unexpected response format'}` instead of
raising a `TransportError`. -/
theorem C1_counterexample :
    (proxyCall c1Parse "u1" "" "GET" "/api/accounts" none (.ok c1Envelope)).2.success = true ∧
    (proxyCall c1Parse "u1" "" "GET" "/api/accounts" none (.ok c1Envelope)).2.data =
      some (.str "PAYLOAD") ∧
    specStatusCode c1Json = some 500 ∧
    specEnvelopeData c1Json = none ∧
    (proxyCall c1Parse "u1" "" "GET" "/api/accounts" none (.ok "no json output")).2.success = false ∧
    (proxyCall c1Parse "u1" "" "GET" "/api/accounts" none (.ok "no json output")).2.error =
      some "Unexpected response format" :=
  ⟨by decide, rfl, rfl, rfl, by decide, by decide⟩

/-- C1 amended: `proxyCall` performs exactly one external invocation (no
retry); a process failure yields `{success: false, error: message}`; when no
output line starts with a left brace it yields the failure value
`'Unexpected response format'`; when the first such line parses to a value
with a truthy `content[0].text` it reports success with that text as the
data, regardless of any `status.code` in the envelope; a defined but falsy
`content[0].text` yields `'Unexpected response format'`; a parse failure
yields the parse error's message.  No `ApiError`/`TransportError` is ever
raised — all failures are returned as `ProxyCallResult` values. -/
theorem C1_proxyCall_behavior (parse : String → Except String Json)
    (userId region method path : String) (data : Option Json) :
    (∀ proc, (proxyCall parse userId region method path data proc).1.length = 1) ∧
    (∀ msg, (proxyCall parse userId region method path data (.error msg)).2 =
      { success := false, data := none, error := some msg }) ∧
    (∀ out, (jsSplitLines (jsTrim out)).find? (fun line => line.data.head? = some lbrace) = none →
      (proxyCall parse userId region method path data (.ok out)).2 =
        { success := false, data := none, error := some "Unexpected response format" }) ∧
    (∀ out line parsed t,
      (jsSplitLines (jsTrim out)).find? (fun l => l.data.head? = some lbrace) = some line →
      parse line = .ok parsed → contentText parsed = .ok (some t) → Json.truthy t = true →
      (proxyCall parse userId region method path data (.ok out)).2 =
        { success := true, data := some t, error := none }) ∧
    (∀ out line parsed t,
      (jsSplitLines (jsTrim out)).find? (fun l => l.data.head? = some lbrace) = some line →
      parse line = .ok parsed → contentText parsed = .ok (some t) → Json.truthy t = false →
      (proxyCall parse userId region method path data (.ok out)).2 =
        { success := false, data := none, error := some "Unexpected response format" }) ∧
    (∀ out line parsed,
      (jsSplitLines (jsTrim out)).find? (fun l => l.data.head? = some lbrace) = some line →
      parse line = .ok parsed → contentText parsed = .ok none →
      (proxyCall parse userId region method path data (.ok out)).2 =
        { success := false, data := none, error := some "Unexpected response format" }) ∧
    (∀ out line msg,
      (jsSplitLines (jsTrim out)).find? (fun l => l.data.head? = some lbrace) = some line →
      parse line = .error msg →
      (proxyCall parse userId region method path data (.ok out)).2 =
        { success := false, data := none, error := some msg }) := by
  refine ⟨fun proc => rfl, fun msg => rfl, ?_, ?_, ?_, ?_, ?_⟩
  · intro out hfind
    simp [proxyCall, hfind]
  · intro out line parsed t hfind hparse htext htruthy
    simp [proxyCall, hfind, hparse, htext, jsTruthy, htruthy]
  · intro out line parsed t hfind hparse htext htruthy
    simp [proxyCall, hfind, hparse, htext, jsTruthy, htruthy]
  · intro out line parsed hfind hparse htext
    simp [proxyCall, hfind, hparse, htext, jsTruthy]
  · intro out line msg hfind hparse
    simp [proxyCall, hfind, hparse]

/-- Concrete process output for the falsy-text conjunct of the C1 witness:
an envelope whose `content[0].text` is defined but falsy (the empty string). -/
def c1FalsyEnvelope : String := "\x7b\"content\":[\x7b\"text\":\"\"\x7d]\x7d"

def c1FalsyJson : Json := .obj [("content", .arr [.obj [("text", .str "")]])]

/-- A concrete `JSON.parse` behavior for the falsy-text C1 witness case. -/
def c1ParseFalsy : String → Except String Json :=
  fun s => if s = c1FalsyEnvelope then .ok c1FalsyJson else .error "Unexpected token"

/-- Witness for C1 at concrete inputs: a process failure, an output with no
JSON line, and an envelope with a defined-but-falsy `content[0].text`, all
returned as failure values. -/
theorem C1_witness :
    (proxyCall c1Parse "u1" "" "GET" "/p" none (.error "spawn failed")).2 =
      { success := false, data := none, error := some "spawn failed" } ∧
    (proxyCall c1Parse "u1" "" "GET" "/p" none (.ok "plain text only")).2 =
      { success := false, data := none, error := some "Unexpected response format" } ∧
    (proxyCall c1ParseFalsy "u1" "" "GET" "/p" none (.ok c1FalsyEnvelope)).2 =
      { success := false, data := none, error := some "Unexpected response format" } := by
  have h := C1_proxyCall_behavior c1Parse "u1" "" "GET" "/p" none
  have hf := C1_proxyCall_behavior c1ParseFalsy "u1" "" "GET" "/p" none
  exact ⟨h.2.1 "spawn failed", h.2.2.1 "plain text only" (by decide),
    hf.2.2.2.2.1 c1FalsyEnvelope c1FalsyEnvelope c1FalsyJson (.str "") (by decide)
      (by simp [c1ParseFalsy]) rfl rfl⟩

/-! ## Claim C2 — `mail send` end-to-end -/

/-- A connected, fully configured store for the C2 theorems. -/
def c2Store : ConfStore :=
  { region := none, accountId := some "ACC123", userId := some "u1", defaultFolder := none }

def c2Opts : MailSendCmdOptions :=
  { «to» := some "a@b.com", subject := some "Hi", body := some "Hello" }

/-- A process output whose envelope has `status.code = 404` and which
contains neither `success` nor `sent`. -/
def c2Out : String := "\x7b\"status\":\x7b\"code\":404,\"description\":\"Not Found\"\x7d\x7d"

set_option maxRecDepth 4000 in
/-- C2 counterexample: the claim says `mail send` issues one POST to
`/accounts/{accountId}/messages` and reports success iff the remote status
code is 200; but on a process output whose envelope carries `status.code =
404` the action still reports success (exit 0) — `sendEmail`'s boolean is
discarded and no status code is ever read — and the single invocation it
issues is a `pdauth` MCP tool call whose command line never mentions an
`/accounts/` REST path. -/
theorem C2_counterexample :
    (mailSendAction true (.error "nodetect") c2Store c2Opts (.ok c2Out)).exitCode = 0 ∧
    (mailSendAction true (.error "nodetect") c2Store c2Opts (.ok c2Out)).apiCalls.length = 1 ∧
    containsStr c2Out "\"code\":404" = true ∧
    containsStr c2Out "\"code\":200" = false ∧
    containsStr ((mailSendAction true (.error "nodetect") c2Store c2Opts (.ok c2Out)).apiCalls.headD "")
      "/accounts/" = false := by
  refine ⟨?_, ?_, ?_, ?_, ?_⟩ <;> decide

/-- C2 amended: `mail send` with truthy `--to`/`--subject`/`--body`, an
active connection and a configured account id issues exactly one external
invocation — the `pdauth call zoho_mail.zoho_mail-send-email` command whose
args embed the instruction built from to, subject and body — and reports
success (exit 0) if and only if the `pdauth` process invocation itself
succeeds; the remote envelope is never consulted. -/
theorem C2_mailSend_behavior (detect : Except String String) (s : ConfStore)
    (t subj b : String) (cc bcc : Option String) (html : Bool)
    (proc : Except String String)
    (ht : t ≠ "") (hsub : subj ≠ "") (hb : b ≠ "")
    (hacc : (getConfig s).accountId ≠ "") :
    (mailSendAction true detect s
        { «to» := some t, cc := cc, bcc := bcc, subject := some subj,
          body := some b, html := html, attach := none } proc).apiCalls =
      [pdauthCallCmd (getPdauthUserId s)
        (sendInstruction
          { «to» := t, subject := subj, content := b,
            cc := cc, bcc := bcc, isHtml := html })] ∧
    ((mailSendAction true detect s
        { «to» := some t, cc := cc, bcc := bcc, subject := some subj,
          body := some b, html := html, attach := none } proc).exitCode = 0 ↔
      ∃ out, proc = .ok out) := by
  constructor <;> cases proc <;>
    simp [mailSendAction, ensureAccountId, sendEmail, optTruthy, hacc, ht, hsub, hb]

/-- Witness for C2 at concrete inputs with a failing process invocation. -/
theorem C2_witness :
    (mailSendAction true (.error "nodetect") c2Store
        { «to» := some "x@y.z", cc := none, bcc := none, subject := some "S",
          body := some "B", html := false, attach := none } (.error "proxy down")).apiCalls =
      [pdauthCallCmd (getPdauthUserId c2Store)
        (sendInstruction
          { «to» := "x@y.z", subject := "S", content := "B",
            cc := none, bcc := none, isHtml := false })] ∧
    ((mailSendAction true (.error "nodetect") c2Store
        { «to» := some "x@y.z", cc := none, bcc := none, subject := some "S",
          body := some "B", html := false, attach := none } (.error "proxy down")).exitCode = 0 ↔
      ∃ out, (Except.error "proxy down" : Except String String) = .ok out) :=
  C2_mailSend_behavior (.error "nodetect") c2Store "x@y.z" "S" "B" none none false
    (.error "proxy down") (by decide) (by decide) (by decide) (by decide)

/-! ## Claim C8 — destructive-operation confirmation gates -/

/-- A connected, fully configured store for the C8 theorems. -/
def c8Store : ConfStore :=
  { region := none, accountId := some "ACC", userId := some "u", defaultFolder := none }

/-- C8 counterexample: the claim says `folders delete F1 --force` issues one
DELETE and exits 0 on success; in the code `deleteFolder` is a capability
stub, so the action issues no request at all and always exits 1. -/
theorem C8_counterexample :
    (foldersDeleteAction true c8Store "F1" true).apiCalls = [] ∧
    (foldersDeleteAction true c8Store "F1" true).exitCode = 1 :=
  ⟨rfl, rfl⟩

/-- C8 amended: without `--force` each destructive command (folders delete,
folders empty, labels delete, mail delete) performs no client call, prints
the warning plus the no-op instruction, and exits 0; with `--force`,
`folders delete` invokes the client's `deleteFolder`, which fails
immediately with the capability-not-available error — no DELETE request is
issued — and the command exits 1. -/
theorem C8_destructive_confirmation (s : ConfStore) (fid fid2 lid mid : String)
    (detect : Except String String) (delE : Except String Bool)
    (hacc : (getConfig s).accountId ≠ "") :
    foldersDeleteAction true s fid false = { apiCalls := [], exitCode := 0, warnedNoop := true } ∧
    foldersEmptyAction true s fid2 false = { apiCalls := [], exitCode := 0, warnedNoop := true } ∧
    labelsDeleteAction true detect s lid false = { apiCalls := [], exitCode := 0, warnedNoop := true } ∧
    mailDeleteAction true detect s mid none false delE = { apiCalls := [], exitCode := 0, warnedNoop := true } ∧
    foldersDeleteAction true s fid true = { apiCalls := [], exitCode := 1, warnedNoop := false } := by
  refine ⟨?_, ?_, ?_, ?_, ?_⟩ <;>
    simp [foldersDeleteAction, foldersEmptyAction, labelsDeleteAction, mailDeleteAction,
      requireAccountId, ensureAccountId, deleteFolder, hacc]

/-- Witness for C8 at the concrete configured store. -/
theorem C8_witness :
    foldersDeleteAction true c8Store "F1" false = { apiCalls := [], exitCode := 0, warnedNoop := true } ∧
    foldersEmptyAction true c8Store "F2" false = { apiCalls := [], exitCode := 0, warnedNoop := true } ∧
    labelsDeleteAction true (.error "d") c8Store "L1" false = { apiCalls := [], exitCode := 0, warnedNoop := true } ∧
    mailDeleteAction true (.error "d") c8Store "M1" none false (.ok true) = { apiCalls := [], exitCode := 0, warnedNoop := true } ∧
    foldersDeleteAction true c8Store "F1" true = { apiCalls := [], exitCode := 1, warnedNoop := false } :=
  C8_destructive_confirmation c8Store "F1" "F2" "L1" "M1" (.error "d") (.ok true) (by decide)

end ZohoCli

